import Mathlib

/-!
# Shallow embedding of `bin/user/wundergroundLike.py`

This file embeds the `WundergroundLike` weewx RESTful extension:
its initializer (`__init__`, source lines 88-151) and its two event
callbacks `new_loop_packet` (lines 153-162) and `new_archive_record`
(lines 164-166), together with the slice of the host configuration
dictionary that the initializer reads.

Conventions of the embedding:
* Python dict-of-dicts configuration sections become structures whose
  optional keys are `Option` fields; a missing section is `none`.
* A `KeyError` / `NameError` escaping `__init__` is an `Except.error`.
* The two queues become `List Packet` values (a `put` appends).
* The host-provided de-duplication helper `CachedValues` is referenced
  by the source (line 140) but neither defined nor imported there, so it
  is modelled abstractly from the spec as `CacheModel`.
* Background threads are represented by the configuration records the
  source constructs them with (`WorkerCfg`); thread execution itself is
  host code and out of scope.
-/

namespace WundergroundLikeSpec

/-- Observation values carried in archive records and loop packets. -/
abbrev Val := Int

/-- An observation mapping (archive record or loop packet): field name to
value, modelled as an association list. -/
abbrev Packet := List (String × Val)

/-- Python `pkt[k]` lookup on a packet, `none` when the key is absent. -/
def lookupVal (k : String) : Packet → Option Val
  | [] => none
  | (k', v) :: rest => if k' = k then some v else lookupVal k rest

/-- The `Essentials` subsection resolved by `search_up` (line 106):
a mapping from field name to a boolean, kept opaque beyond that. -/
abbrev Essentials := List (String × Bool)

/-- The `[[WundergroundLike]]` configuration section: three required keys
and the optional tuning keys the initializer reads or forwards. -/
structure SiteSection where
  station : Option String
  password : Option String
  server_url : Option String
  rapidfire : Option Bool
  archive_post : Option Bool
  log_success : Option Bool
  log_failure : Option Bool
  max_backlog : Option Nat
  max_tries : Option Nat
  rtfreq : Option ℚ
deriving DecidableEq

/-- The `[StdRESTful][[Wunderground]]` section, read at line 106 only for
its optional `Essentials` subsection. -/
structure WundergroundSection where
  essentials : Option Essentials
deriving DecidableEq

/-- The `[StdRESTful]` section of the host configuration. -/
structure StdRESTfulSection where
  wunderground : Option WundergroundSection
deriving DecidableEq

/-- The slice of the host `config_dict` that `__init__` touches:
the named extension section and the `[StdRESTful]` section. -/
structure ConfigDict where
  wundergroundLike : Option SiteSection
  stdRESTful : Option StdRESTfulSection
deriving DecidableEq

/-- The `_ambient_dict` returned by `get_site_dict`: the three required
keys are guaranteed present, the rest are carried through as supplied. -/
structure AmbientDict where
  station : String
  password : String
  server_url : String
  rapidfire : Option Bool
  archive_post : Option Bool
  log_success : Option Bool
  log_failure : Option Bool
  max_backlog : Option Nat
  max_tries : Option Nat
  rtfreq : Option ℚ
deriving DecidableEq

/-- Log message emitted when a required configuration option is absent,
naming the required keys. -/
def requiredKeysMsg : String :=
  "WundergroundLike: Data will not be posted. Missing option among: station, password, server_url"

/-- Log message of line 97 (`log.info` of the ambient dict). -/
def ambientDictLogMsg : String := "_ambient_dict: "

/-- Log message of lines 130-131 announcing archive posting. -/
def archivePostLogMsg (station : String) : String :=
  "WundergroundLike: Data for station " ++ station ++ " will be posted"

/-- Modelled from the spec: `weewx.restx.get_site_dict` (called at lines
92-93), a host configuration lookup helper that is not part of this
repository. Per the spec it resolves the named section with required-key
validation: it yields the section's options when `station`, `password`
and `server_url` are all present, and otherwise reports failure (logging
an error naming the missing requirement) so that initialization aborts. -/
def get_site_dict (cfg : ConfigDict) : Option AmbientDict :=
  match cfg.wundergroundLike with
  | none => none
  | some s =>
    match s.station, s.password, s.server_url with
    | some st, some pw, some url =>
        some { station := st, password := pw, server_url := url,
               rapidfire := s.rapidfire, archive_post := s.archive_post,
               log_success := s.log_success, log_failure := s.log_failure,
               max_backlog := s.max_backlog, max_tries := s.max_tries,
               rtfreq := s.rtfreq }
    | _, _, _ => none

/-- A Python exception escaping `__init__`. -/
inductive PyErr where
  | keyError (key : String)
  | nameError (nm : String)
deriving DecidableEq

/-- The two host event kinds the initializer can bind callbacks to. -/
inductive EventKind where
  | newArchiveRecord
  | newLoopPacket
deriving DecidableEq

/-- The arguments a background upload worker is constructed with
(lines 122-127 / 142-147): protocol name, essentials, and the remaining
`_ambient_dict` passed as keyword arguments. -/
structure WorkerCfg where
  protocol_name : String
  essentials : Essentials
  kwargs : AmbientDict
deriving DecidableEq

/-- The observable outcome of a completed `__init__`: which listeners were
bound, which queues and workers were constructed, the value of the local
`do_rapidfire_post` flag, and the log lines produced. -/
structure InitResult where
  listeners : List EventKind
  archiveQueue : Option (List Packet)
  archiveWorker : Option WorkerCfg
  loopQueue : Option (List Packet)
  loopWorker : Option WorkerCfg
  effectiveRapidfire : Bool
  logs : List String
deriving DecidableEq

/-- The silent-abort outcome (line 95): required configuration was
missing, the error was logged, no listener was bound, nothing was built. -/
def noopResult : InitResult :=
  { listeners := []
    archiveQueue := none
    archiveWorker := none
    loopQueue := none
    loopWorker := none
    effectiveRapidfire := false
    logs := [requiredKeysMsg] }

/-- Python `dict.setdefault` on one optional key: keep a supplied value,
otherwise install the default. -/
def setdefault (cur : Option α) (dflt : α) : Option α :=
  match cur with
  | some v => some v
  | none => some dflt

/-- The `setdefault` cascade of the rapidfire branch, lines 134-139.
`server_url` is a required key and hence always present, so its
`setdefault` (line 134) is a no-op and is not represented. -/
def applyLiveDefaults (d : AmbientDict) : AmbientDict :=
  { d with
    log_success := setdefault d.log_success false
    log_failure := setdefault d.log_failure false
    max_backlog := setdefault d.max_backlog 0
    max_tries := setdefault d.max_tries 1
    rtfreq := setdefault d.rtfreq (2.5 : ℚ) }

/-- Lines 97-151 of `__init__`, after `get_site_dict` has succeeded with
`d0` and the `Essentials` lookup has resolved to `ess`:
force `rapidfire` to `False` (line 100), pop `rapidfire` and
`archive_post` to derive the two path flags (lines 116-118), run the
archive branch (lines 119-131), then the rapidfire branch
(lines 133-151).  In that branch `CachedValues()` (line 140) is an
undefined name — the class exists only in upstream weewx `restx.py` and
is neither defined nor imported in this file — so reaching it raises a
`NameError`. -/
def configuredResult (d0 : AmbientDict) (ess : Essentials) : Except PyErr InitResult :=
  let d1 : AmbientDict := { d0 with rapidfire := some false }
  let do_rapidfire_post : Bool := (d1.rapidfire).getD false
  let d2 : AmbientDict := { d1 with rapidfire := none }
  let do_archive_post : Bool := (d2.archive_post).getD (!do_rapidfire_post)
  let d3 : AmbientDict := { d2 with archive_post := none }
  let afterArchive : InitResult :=
    if do_archive_post then
      { listeners := [EventKind.newArchiveRecord]
        archiveQueue := some []
        archiveWorker := some { protocol_name := "WundergroundLike"
                                essentials := ess
                                kwargs := d3 }
        loopQueue := none
        loopWorker := none
        effectiveRapidfire := do_rapidfire_post
        logs := [ambientDictLogMsg, archivePostLogMsg d3.station] }
    else
      { listeners := []
        archiveQueue := none
        archiveWorker := none
        loopQueue := none
        loopWorker := none
        effectiveRapidfire := do_rapidfire_post
        logs := [ambientDictLogMsg] }
  if do_rapidfire_post then
    Except.error (PyErr.nameError "CachedValues")
  else
    Except.ok afterArchive

/-- `WundergroundLike.__init__`, lines 88-151.  The `super().__init__`
call (line 90) runs the host base class and is out of scope.  After the
site lookup, line 106 subscripts `config_dict` with `StdRESTful` and then
`Wunderground`; either subscript raises `KeyError` when the section is
absent.  The manager-dictionary lookup (lines 111-112) is host code and
modelled as always succeeding. -/
def init (cfg : ConfigDict) : Except PyErr InitResult :=
  match get_site_dict cfg with
  | none => Except.ok noopResult
  | some d0 =>
    match cfg.stdRESTful with
    | none => Except.error (PyErr.keyError "StdRESTful")
    | some sr =>
      match sr.wunderground with
      | none => Except.error (PyErr.keyError "Wunderground")
      | some wu => configuredResult d0 (wu.essentials.getD [])

/-- Modelled from the spec: the host de-duplication cache helper.  The
source instantiates `CachedValues` (line 140) and calls
`self.cached_values.update(packet, ts)` and
`self.cached_values.get_packet(ts)` (lines 157-162), but the class itself
is absent from this repository.  The spec describes it only as an
injected helper that accepts packet-plus-timestamp updates, yields a
merged packet for a timestamp, and answers a yes/no novelty verdict
("novel relative to the last archive-level upload"); its exact rule is
deliberately unspecified, so the helper is kept abstract: any
implementation of this interface. -/
structure CacheModel (CV : Type) where
  update : CV → Packet → Val → CV
  get_packet : CV → Val → Packet
  novel : CV → Packet → Bool

/-- The mutable state `new_loop_packet` touches: `self.cached_values`
and `self.loop_queue`. -/
structure LoopState (CV : Type) where
  cached_values : CV
  loop_queue : List Packet
deriving DecidableEq

/-- `WundergroundLike.new_loop_packet`, lines 153-162, for a callback
environment with cache state and loop queue.  Line 157 subscripts
`event.packet['dateTime']`, raising `KeyError` when the field is absent,
before the cache is updated or anything is enqueued; otherwise the cache
is updated with the packet and its timestamp and the cache's merged
packet for that timestamp is put on the loop queue, unconditionally. -/
def new_loop_packet {CV : Type} (M : CacheModel CV) (packet : Packet)
    (st : LoopState CV) : Except PyErr (LoopState CV) :=
  match lookupVal "dateTime" packet with
  | none => Except.error (PyErr.keyError "dateTime")
  | some ts =>
    let cv := M.update st.cached_values packet ts
    Except.ok { cached_values := cv
                loop_queue := st.loop_queue ++ [M.get_packet cv ts] }

/-- `WundergroundLike.new_archive_record`, lines 164-166: put the event's
record, as is, on the archive queue. -/
def new_archive_record (record : Packet) (archive_queue : List Packet) : List Packet :=
  archive_queue ++ [record]

/-! ## Concrete inputs used by witnesses and counterexamples -/

/-- A complete `[[WundergroundLike]]` section: the three required keys are
present, every optional key is absent. -/
def completeSite : SiteSection :=
  { station := some "KXYZ"
    password := some "hunter2"
    server_url := some "https://example.org/wu"
    rapidfire := none
    archive_post := none
    log_success := none
    log_failure := none
    max_backlog := none
    max_tries := none
    rtfreq := none }

/-- A complete section in which the user additionally supplied
`rapidfire = true`. -/
def rapidfireTrueSite : SiteSection := { completeSite with rapidfire := some true }

/-- A complete section that requests the live path and overrides every
live tuning key. -/
def tunedSite : SiteSection :=
  { completeSite with
    rapidfire := some true
    log_success := some true
    log_failure := some true
    max_backlog := some 5
    max_tries := some 7
    rtfreq := some 10 }

/-- A section in which the required `password` key is absent. -/
def missingPasswordSite : SiteSection := { completeSite with password := none }

/-- The standard host sections present in a normal weewx configuration. -/
def hostSections : StdRESTfulSection :=
  { wunderground := some { essentials := none } }

/-- A fully populated host configuration. -/
def cfgComplete : ConfigDict :=
  { wundergroundLike := some completeSite, stdRESTful := some hostSections }

/-- A fully populated host configuration with `rapidfire = true`. -/
def cfgRapidfireTrue : ConfigDict :=
  { wundergroundLike := some rapidfireTrueSite, stdRESTful := some hostSections }

/-- A fully populated host configuration requesting the live path with
every live tuning key overridden. -/
def cfgRapidfireTuned : ConfigDict :=
  { wundergroundLike := some tunedSite, stdRESTful := some hostSections }

/-- A configuration whose extension section lacks the `password` key. -/
def cfgMissingPassword : ConfigDict :=
  { wundergroundLike := some missingPasswordSite, stdRESTful := some hostSections }

/-- A configuration with a complete extension section but no
`[StdRESTful]` section at all. -/
def cfgNoStdRESTful : ConfigDict :=
  { wundergroundLike := some completeSite, stdRESTful := none }

/-- The `_ambient_dict` as the archive worker receives it for
`completeSite`-shaped input: `rapidfire` and `archive_post` popped. -/
def completeKwargs : AmbientDict :=
  { station := "KXYZ"
    password := "hunter2"
    server_url := "https://example.org/wu"
    rapidfire := none
    archive_post := none
    log_success := none
    log_failure := none
    max_backlog := none
    max_tries := none
    rtfreq := none }

/-- The initialization outcome for `cfgComplete` (and for
`cfgRapidfireTrue`, since the forced-false `rapidfire` is popped):
archive path only. -/
def completeResult : InitResult :=
  { listeners := [EventKind.newArchiveRecord]
    archiveQueue := some []
    archiveWorker := some { protocol_name := "WundergroundLike"
                            essentials := []
                            kwargs := completeKwargs }
    loopQueue := none
    loopWorker := none
    effectiveRapidfire := false
    logs := [ambientDictLogMsg, archivePostLogMsg "KXYZ"] }

/-- The initialization outcome for `cfgRapidfireTuned`: still archive
path only, the tuning keys merely ride along in the worker kwargs. -/
def tunedResult : InitResult :=
  { listeners := [EventKind.newArchiveRecord]
    archiveQueue := some []
    archiveWorker := some { protocol_name := "WundergroundLike"
                            essentials := []
                            kwargs := { completeKwargs with
                                          log_success := some true
                                          log_failure := some true
                                          max_backlog := some 5
                                          max_tries := some 7
                                          rtfreq := some 10 } }
    loopQueue := none
    loopWorker := none
    effectiveRapidfire := false
    logs := [ambientDictLogMsg, archivePostLogMsg "KXYZ"] }

/-- An `_ambient_dict` with no live tuning key supplied. -/
def bareAmbient : AmbientDict := completeKwargs

/-- A concrete de-duplication cache: the state is the most recent
archive-upload packet, held fixed; loop updates are absorbed, the merged
packet is the stored one, and a packet is novel exactly when it differs
from the stored upload. -/
def archiveEchoCache : CacheModel Packet :=
  { update := fun cv _ _ => cv
    get_packet := fun cv _ => cv
    novel := fun cv pkt => decide (pkt ≠ cv) }

/-- A concrete cache whose merged packet is the stored archive packet
with the incoming packet's fields appended. -/
def mergeCache : CacheModel Packet :=
  { update := fun cv pkt _ => cv ++ pkt
    get_packet := fun cv _ => cv
    novel := fun _ _ => true }

/-- A loop packet carrying a `dateTime` field. -/
def pktLoop : Packet := [("dateTime", 1000), ("outTemp", 21)]

/-- A loop packet with no `dateTime` field. -/
def pktNoDateTime : Packet := [("outTemp", 21)]

/-- An earlier archive-upload packet. -/
def pktArchive : Packet := [("dateTime", 900), ("outTemp", 20)]

/-! ## Helper lemmas shared by the claim theorems -/

/-- After a successful site lookup, lines 97-151 always complete without
an exception, never build the live path, and never hand `rapidfire` to a
worker: the flag was forced to `False` (line 100) and popped (line 116),
so `do_rapidfire_post` is `false` on every input. -/
theorem configuredResult_spec (d0 : AmbientDict) (ess : Essentials) :
    ∃ r, configuredResult d0 ess = Except.ok r ∧
      r.loopWorker = none ∧ r.loopQueue = none ∧
      EventKind.newLoopPacket ∉ r.listeners ∧
      r.effectiveRapidfire = false ∧
      (∀ w, r.archiveWorker = some w → w.kwargs.rapidfire = none) := by
  obtain ⟨st, pw, url, rf, ap, ls, lf, mb, mt, rq⟩ := d0
  rcases ap with _ | b
  · exact ⟨_, rfl, rfl, rfl, by simp, rfl, fun w hw => by cases hw; rfl⟩
  · rcases b with _ | _
    · exact ⟨_, rfl, rfl, rfl, by simp, rfl, fun w hw => by cases hw⟩
    · exact ⟨_, rfl, rfl, rfl, by simp, rfl, fun w hw => by cases hw; rfl⟩

/-- Restatement of `configuredResult_spec` against a given successful
outcome. -/
theorem configuredResult_ok_spec (d0 : AmbientDict) (ess : Essentials)
    (r : InitResult) (h : configuredResult d0 ess = Except.ok r) :
    r.loopWorker = none ∧ r.loopQueue = none ∧
    EventKind.newLoopPacket ∉ r.listeners ∧
    r.effectiveRapidfire = false ∧
    (∀ w, r.archiveWorker = some w → w.kwargs.rapidfire = none) := by
  obtain ⟨r', hr', hspec⟩ := configuredResult_spec d0 ess
  rw [hr'] at h
  injection h with h
  subst h
  exact hspec

/-- `configuredResult` never raises: the only raising statement inside it,
the `CachedValues()` name lookup of line 140, sits in the unreachable
rapidfire branch. -/
theorem configuredResult_ne_error (d0 : AmbientDict) (ess : Essentials) (e : PyErr) :
    configuredResult d0 ess ≠ Except.error e := by
  obtain ⟨r, hr, -⟩ := configuredResult_spec d0 ess
  rw [hr]
  exact fun h => Except.noConfusion h

/-- When `archive_post` is unset or truthy, the archive branch runs and
yields exactly the archive-only outcome. -/
theorem configuredResult_archive (d0 : AmbientDict) (ess : Essentials)
    (hap : d0.archive_post = none ∨ d0.archive_post = some true) :
    configuredResult d0 ess = Except.ok
      { listeners := [EventKind.newArchiveRecord]
        archiveQueue := some []
        archiveWorker := some { protocol_name := "WundergroundLike"
                                essentials := ess
                                kwargs := { d0 with rapidfire := none, archive_post := none } }
        loopQueue := none
        loopWorker := none
        effectiveRapidfire := false
        logs := [ambientDictLogMsg, archivePostLogMsg d0.station] } := by
  obtain ⟨st, pw, url, rf, ap, ls, lf, mb, mt, rq⟩ := d0
  rcases hap with h | h <;> cases h <;> rfl

/-- Everything a completed `__init__` guarantees, whatever the input
configuration: no live queue, no live worker, no live listener, the
`do_rapidfire_post` flag false, and no `rapidfire` key in any worker's
kwargs. -/
theorem init_ok_spec (cfg : ConfigDict) (r : InitResult)
    (h : init cfg = Except.ok r) :
    r.loopWorker = none ∧ r.loopQueue = none ∧
    EventKind.newLoopPacket ∉ r.listeners ∧
    r.effectiveRapidfire = false ∧
    (∀ w, r.archiveWorker = some w → w.kwargs.rapidfire = none) := by
  unfold init at h
  split at h
  · injection h with h
    subst h
    exact ⟨rfl, rfl, by simp [noopResult], rfl, fun w hw => by simp [noopResult] at hw⟩
  · split at h
    · exact Except.noConfusion h
    · split at h
      · exact Except.noConfusion h
      · exact configuredResult_ok_spec _ _ _ h

/-- `setdefault` on an absent key installs the default. -/
theorem setdefault_none (dflt : α) : setdefault none dflt = some dflt := rfl

/-- `setdefault` on a present key keeps the supplied value. -/
theorem setdefault_some (v dflt : α) : setdefault (some v) dflt = some v := rfl

/-! ## Claim theorems -/

/-- Claim C1, counterexample: with the cache holding exactly the incoming
packet as the most recent archive upload, the novelty verdict is
negative, yet `new_loop_packet` still enqueues a packet onto the loop
queue — the claimed drop never happens. -/
theorem loop_enqueue_despite_negative_verdict :
    archiveEchoCache.novel pktLoop pktLoop = false ∧
    new_loop_packet archiveEchoCache pktLoop (LoopState.mk pktLoop []) =
      Except.ok (LoopState.mk pktLoop [pktLoop]) := by
  constructor
  · simp [archiveEchoCache]
  · rfl

/-- Claim C1, amended: on every live-packet event the callback processes
to completion, exactly one packet is placed onto the loop queue,
unconditionally — the callback consults no novelty verdict and never
drops a packet. -/
theorem new_loop_packet_always_enqueues_one {CV : Type} (M : CacheModel CV)
    (packet : Packet) (st r : LoopState CV)
    (h : new_loop_packet M packet st = Except.ok r) :
    ∃ p, r.loop_queue = st.loop_queue ++ [p] := by
  unfold new_loop_packet at h
  split at h
  · exact Except.noConfusion h
  · injection h with h
    subst h
    exact ⟨_, rfl⟩

/-- Witness for the amended claim C1 at a concrete cache, packet and
state. -/
theorem new_loop_packet_always_enqueues_one_witness :
    ∃ p, (LoopState.mk pktLoop [pktLoop] : LoopState Packet).loop_queue =
      (LoopState.mk pktLoop [] : LoopState Packet).loop_queue ++ [p] :=
  new_loop_packet_always_enqueues_one archiveEchoCache pktLoop
    (LoopState.mk pktLoop []) (LoopState.mk pktLoop [pktLoop]) rfl

/-- Claim C2, counterexample: a complete configuration with
`rapidfire = true` — the only way the configuration can request the live
path — still yields no loop queue, no loop worker, and no live-packet
listener. -/
theorem rapidfire_request_builds_no_live_path :
    rapidfireTrueSite.rapidfire = some true ∧
    cfgRapidfireTrue.wundergroundLike = some rapidfireTrueSite ∧
    init cfgRapidfireTrue = Except.ok completeResult ∧
    completeResult.loopQueue = none ∧
    completeResult.loopWorker = none ∧
    EventKind.newLoopPacket ∉ completeResult.listeners :=
  ⟨rfl, rfl, rfl, rfl, rfl, by decide⟩

/-- Claim C2, amended: the live/rapidfire path can never be enabled.
Line 100 forces `rapidfire` to `False` before line 116 derives
`do_rapidfire_post` from it, so for every configuration a completed
initialization has no loop queue, no loop worker, and no live-packet
listener. -/
theorem live_path_never_enabled (cfg : ConfigDict) (r : InitResult)
    (h : init cfg = Except.ok r) :
    r.loopQueue = none ∧ r.loopWorker = none ∧
    EventKind.newLoopPacket ∉ r.listeners := by
  obtain ⟨h1, h2, h3, -, -⟩ := init_ok_spec cfg r h
  exact ⟨h2, h1, h3⟩

/-- Witness for the amended claim C2 at the rapidfire-requesting
configuration. -/
theorem live_path_never_enabled_witness :
    completeResult.loopQueue = none ∧ completeResult.loopWorker = none ∧
    EventKind.newLoopPacket ∉ completeResult.listeners :=
  live_path_never_enabled cfgRapidfireTrue completeResult rfl

/-- Claim C3: for every configuration a completed initialization leaves
the effective rapidfire flag (`do_rapidfire_post`) false, and no worker
receives a `rapidfire` keyword: the key was forced false and popped.
This covers in particular every complete configuration with
`rapidfire = true`. -/
theorem effective_rapidfire_always_false (cfg : ConfigDict) (r : InitResult)
    (h : init cfg = Except.ok r) :
    r.effectiveRapidfire = false ∧
    ∀ w, r.archiveWorker = some w → w.kwargs.rapidfire = none :=
  ⟨(init_ok_spec cfg r h).2.2.2.1, (init_ok_spec cfg r h).2.2.2.2⟩

/-- Witness for claim C3 at the configuration supplying
`rapidfire = true`. -/
theorem effective_rapidfire_always_false_witness :
    completeResult.effectiveRapidfire = false ∧
    ∀ w, completeResult.archiveWorker = some w → w.kwargs.rapidfire = none :=
  effective_rapidfire_always_false cfgRapidfireTrue completeResult rfl

/-- Claim C4, counterexample: a configuration carrying all three required
keys but lacking the `[StdRESTful]` section makes `__init__` raise a
missing-section lookup error (line 106) instead of returning. -/
theorem init_keyerror_missing_stdrestful :
    init cfgNoStdRESTful = Except.error (PyErr.keyError "StdRESTful") := rfl

/-- Claim C4, amended: missing required configuration is indeed handled
by logging and aborting silently with no exception; but initialization is
not exception-free on every input — a configuration that passes the
required-key check while lacking the `[StdRESTful]` or
`[[Wunderground]]` section raises a missing-section lookup error from
line 106, and those two lookups are the only raising statements
reachable. -/
theorem init_abort_characterization (cfg : ConfigDict) :
    (get_site_dict cfg = none → init cfg = Except.ok noopResult) ∧
    (∀ e, init cfg = Except.error e →
      e = PyErr.keyError "StdRESTful" ∨ e = PyErr.keyError "Wunderground") := by
  constructor
  · intro hsite
    simp only [init, hsite]
  · intro e he
    unfold init at he
    split at he
    · exact Except.noConfusion he
    · split at he
      · injection he with h
        exact Or.inl h.symm
      · split at he
        · injection he with h
          exact Or.inr h.symm
        · exact absurd he (configuredResult_ne_error _ _ _)

/-- Witness for the amended claim C4 at a configuration missing a
required key: silent abort, no exception. -/
theorem init_abort_characterization_witness :
    init cfgMissingPassword = Except.ok noopResult :=
  (init_abort_characterization cfgMissingPassword).1 rfl

/-- Claim C5: a configuration section missing any of the required keys
`station`, `password`, `server_url` makes initialization register no
event listener at all, while the error naming the requirement is
logged. -/
theorem missing_required_key_registers_nothing (cfg : ConfigDict) (s : SiteSection)
    (hs : cfg.wundergroundLike = some s)
    (hmiss : s.station = none ∨ s.password = none ∨ s.server_url = none) :
    init cfg = Except.ok noopResult ∧
    noopResult.listeners = [] ∧ requiredKeysMsg ∈ noopResult.logs := by
  obtain ⟨sst, spw, surl, srf, sap, sls, slf, smb, smt, srq⟩ := s
  have hsite : get_site_dict cfg = none := by
    simp only [get_site_dict, hs]
    rcases hmiss with h | h | h
    · subst h
      rfl
    · subst h
      rcases sst with _ | a <;> rfl
    · subst h
      rcases sst with _ | a <;> rcases spw with _ | b <;> rfl
  refine ⟨?_, rfl, ?_⟩
  · simp only [init, hsite]
  · simp [noopResult]

/-- Witness for claim C5 at the configuration lacking `password`. -/
theorem missing_required_key_registers_nothing_witness :
    init cfgMissingPassword = Except.ok noopResult ∧
    noopResult.listeners = [] ∧ requiredKeysMsg ∈ noopResult.logs :=
  missing_required_key_registers_nothing cfgMissingPassword missingPasswordSite
    rfl (Or.inr (Or.inl rfl))

/-- Claim C6: `new_archive_record` puts the event's record on the archive
queue unchanged — the enqueued element is the record itself, the rest of
the queue is untouched, and exactly one element was added. -/
theorem archive_record_enqueued_unchanged (record : Packet) (q : List Packet) :
    (new_archive_record record q).getLast? = some record ∧
    (new_archive_record record q).dropLast = q ∧
    (new_archive_record record q).length = q.length + 1 := by
  refine ⟨?_, ?_, ?_⟩ <;> simp [new_archive_record]

/-- Claim C7: with the three required keys present, the host sections in
place, `archive_post` unset and no live path requested, the archive path
defaults to enabled: an archive queue and worker are constructed and the
new-archive-record listener is registered. -/
theorem archive_path_defaults_enabled (cfg : ConfigDict) (d : AmbientDict)
    (sr : StdRESTfulSection) (wu : WundergroundSection)
    (hsite : get_site_dict cfg = some d)
    (hap : d.archive_post = none) (_hrf : d.rapidfire = none)
    (hsr : cfg.stdRESTful = some sr) (hwu : sr.wunderground = some wu) :
    ∃ r, init cfg = Except.ok r ∧ r.archiveQueue = some [] ∧
      r.archiveWorker.isSome = true ∧
      EventKind.newArchiveRecord ∈ r.listeners := by
  have harch := configuredResult_archive d (wu.essentials.getD []) (Or.inl hap)
  have hinit : init cfg = configuredResult d (wu.essentials.getD []) := by
    simp only [init, hsite, hsr, hwu]
  rw [harch] at hinit
  exact ⟨_, hinit, rfl, rfl, by simp⟩

/-- Witness for claim C7 at the complete configuration with
`archive_post` unset. -/
theorem archive_path_defaults_enabled_witness :
    ∃ r, init cfgComplete = Except.ok r ∧ r.archiveQueue = some [] ∧
      r.archiveWorker.isSome = true ∧
      EventKind.newArchiveRecord ∈ r.listeners :=
  archive_path_defaults_enabled cfgComplete completeKwargs hostSections
    { essentials := none } rfl rfl rfl rfl rfl

/-- Claim C8, counterexample: a complete configuration requesting the
live path (and overriding every live tuning key) still produces no live
worker at all, so no worker is configured with the claimed defaults. -/
theorem rapidfire_request_builds_no_live_worker :
    tunedSite.rapidfire = some true ∧
    init cfgRapidfireTuned = Except.ok tunedResult ∧
    tunedResult.loopWorker = none :=
  ⟨rfl, rfl, rfl⟩

/-- Claim C8, amended: no configuration reaches the live branch — every
completed initialization has no loop worker — while the branch's
`setdefault` cascade (lines 134-139), as written, would give
`log_success=false`, `log_failure=false`, `max_backlog=0`, `max_tries=1`
and `rtfreq=2.5` exactly when the key is not supplied, keeping any
supplied value. -/
theorem live_branch_unreachable_and_defaults :
    (∀ cfg r, init cfg = Except.ok r → r.loopWorker = none) ∧
    (∀ d : AmbientDict,
      (d.log_success = none → (applyLiveDefaults d).log_success = some false) ∧
      (∀ b, d.log_success = some b → (applyLiveDefaults d).log_success = some b) ∧
      (d.log_failure = none → (applyLiveDefaults d).log_failure = some false) ∧
      (∀ b, d.log_failure = some b → (applyLiveDefaults d).log_failure = some b) ∧
      (d.max_backlog = none → (applyLiveDefaults d).max_backlog = some 0) ∧
      (∀ n, d.max_backlog = some n → (applyLiveDefaults d).max_backlog = some n) ∧
      (d.max_tries = none → (applyLiveDefaults d).max_tries = some 1) ∧
      (∀ n, d.max_tries = some n → (applyLiveDefaults d).max_tries = some n) ∧
      (d.rtfreq = none → (applyLiveDefaults d).rtfreq = some (2.5 : ℚ)) ∧
      (∀ x, d.rtfreq = some x → (applyLiveDefaults d).rtfreq = some x)) := by
  constructor
  · intro cfg r h
    exact (init_ok_spec cfg r h).1
  · intro d
    refine ⟨?_, ?_, ?_, ?_, ?_, ?_, ?_, ?_, ?_, ?_⟩ <;>
      first
        | (intro h; simp [applyLiveDefaults, setdefault, h])
        | (intro v h; simp [applyLiveDefaults, setdefault, h])

/-- Witness for the amended claim C8: the live-requesting tuned
configuration yields no loop worker, and the default cascade on an
`_ambient_dict` with no tuning keys yields `max_tries = 1`. -/
theorem live_branch_unreachable_and_defaults_witness :
    tunedResult.loopWorker = none ∧
    (applyLiveDefaults bareAmbient).max_tries = some 1 :=
  ⟨live_branch_unreachable_and_defaults.1 cfgRapidfireTuned tunedResult rfl,
   ((live_branch_unreachable_and_defaults.2 bareAmbient).2.2.2.2.2.2.1) rfl⟩

/-- Claim C9: `new_loop_packet` reads the packet's `dateTime` key
(line 157): a packet lacking that field makes the callback fail with a
lookup error before anything is enqueued, and a packet carrying it is
accepted — no other validation is performed. -/
theorem loop_packet_requires_dateTime {CV : Type} (M : CacheModel CV)
    (packet : Packet) (st : LoopState CV) :
    (lookupVal "dateTime" packet = none →
      new_loop_packet M packet st = Except.error (PyErr.keyError "dateTime")) ∧
    ((lookupVal "dateTime" packet).isSome = true →
      ∃ r, new_loop_packet M packet st = Except.ok r) := by
  constructor
  · intro h
    simp only [new_loop_packet, h]
  · intro h
    rcases hl : lookupVal "dateTime" packet with _ | ts
    · simp [hl] at h
    · exact ⟨LoopState.mk (M.update st.cached_values packet ts)
        (st.loop_queue ++ [M.get_packet (M.update st.cached_values packet ts) ts]),
        by simp only [new_loop_packet, hl]⟩

/-- Witness for claim C9 at a packet with no `dateTime` field. -/
theorem loop_packet_requires_dateTime_witness :
    new_loop_packet archiveEchoCache pktNoDateTime (LoopState.mk pktArchive []) =
      Except.error (PyErr.keyError "dateTime") :=
  (loop_packet_requires_dateTime archiveEchoCache pktNoDateTime
    (LoopState.mk pktArchive [])).1 rfl

/-- Claim C10: the object `new_loop_packet` enqueues is the cache's
merged packet for the event's timestamp — `get_packet` applied after
`update` — while the archive callback enqueues the raw record itself. -/
theorem loop_enqueues_merged_cached_packet {CV : Type} (M : CacheModel CV)
    (packet : Packet) (st : LoopState CV) (ts : Val)
    (h : lookupVal "dateTime" packet = some ts) :
    new_loop_packet M packet st =
      Except.ok (LoopState.mk (M.update st.cached_values packet ts)
        (st.loop_queue ++ [M.get_packet (M.update st.cached_values packet ts) ts])) ∧
    ∀ q : List Packet, new_archive_record packet q = q ++ [packet] := by
  refine ⟨?_, fun q => rfl⟩
  simp only [new_loop_packet, h]

/-- Witness for claim C10 at a merging cache where the enqueued merged
packet visibly differs from the raw event packet. -/
theorem loop_enqueues_merged_cached_packet_witness :
    new_loop_packet mergeCache pktLoop (LoopState.mk pktArchive []) =
      Except.ok (LoopState.mk (mergeCache.update pktArchive pktLoop 1000)
        ([] ++ [mergeCache.get_packet (mergeCache.update pktArchive pktLoop 1000) 1000])) ∧
    ∀ q : List Packet, new_archive_record pktLoop q = q ++ [pktLoop] :=
  loop_enqueues_merged_cached_packet mergeCache pktLoop
    (LoopState.mk pktArchive []) 1000 rfl

end WundergroundLikeSpec
